import Mathlib

/-!
Shallow embedding of the two source files of this repository:
`src/lib/hooks/api/usePullRequests.ts` and
`src/pages/workspaces/[workspaceId]/settings.tsx`.

JavaScript `Map<string, boolean>` values are embedded as association lists
`List (String × Bool)` in insertion order: `Map.prototype.set` updates the
value in place when the key exists and appends the entry otherwise, and
iteration (`entries`, `forEach`, `Array.from`) visits entries in insertion
order.  JavaScript `Set<string>` values are embedded as duplicate-free
lists `List String` in insertion order.  Fallible API calls are embedded
by their observable result: an optional error value (the code only ever
branches on the truthiness of `error`).
-/

set_option autoImplicit false

namespace App

/-- Embedding of a JavaScript `Map.prototype.has` test on an association
list: true when some entry has the given key. -/
def mapHas (m : List (String × Bool)) (k : String) : Bool :=
  m.any (fun e => e.1 == k)

/-- Embedding of `Map.prototype.set`: when the key is present the value is
updated in place (insertion order kept), otherwise the entry is appended. -/
def mapSet (m : List (String × Bool)) (k : String) (v : Bool) : List (String × Bool) :=
  if mapHas m k then m.map (fun e => if e.1 == k then (e.1, v) else e)
  else m ++ [(k, v)]

/-- Embedding of `Map.prototype.delete` composed over a traversal: removes
every entry with the given key. -/
def mapDeleteKey (m : List (String × Bool)) (k : String) : List (String × Bool) :=
  m.filter (fun e => !(e.1 == k))

/-- Embedding of the `new Map(entries)` constructor: the entries are
inserted one by one with `set` semantics. -/
def mapOfEntries (es : List (String × Bool)) : List (String × Bool) :=
  es.foldl (fun m e => mapSet m e.1 e.2) []

/-- Embedding of `new Set([...s, x])`: appends `x` unless already present. -/
def setAdd (s : List String) (x : String) : List String :=
  if s.contains x then s else s ++ [x]

/-- Toast variants used by the settings page (`variant: "danger" | "success"`). -/
inductive ToastVariant where
  | danger
  | success
deriving DecidableEq, Repr

/-- A toast message as issued by `toast({ description, variant })`. -/
structure Toast where
  description : String
  variant : ToastVariant
deriving DecidableEq, Repr

/-- An API error as observed by the settings page: the code only inspects
truthiness and (in `getServerSideProps`) the `status` field. -/
structure ApiError where
  status : Nat
deriving DecidableEq, Repr

/-- The workspace record used by the settings page (`id`, `name`,
`description` are the fields the code reads). -/
structure Workspace where
  id : String
  name : String
  description : String
deriving DecidableEq, Repr

/-- A repository reference as sent in update payloads: `{ full_name }`. -/
structure RepoRef where
  full_name : String
deriving DecidableEq, Repr

/-! ## usePullRequests (src/lib/hooks/api/usePullRequests.ts) -/

/-- Initial page of `usePullRequests`, from `useState(1)`. -/
def initialPage : Nat := 1

/-- Initial limit of `usePullRequests`, from `useState(500)`. -/
def initialLimit : Nat := 500

/-- The constant `stars = 1000`. -/
def stars : Nat := 1000

/-- Query fragment `page ? "page=" + page : ""` (0 is the only falsy
natural number). -/
def pageQuery (page : Nat) : String :=
  if page ≠ 0 then "page=" ++ toString page else ""

/-- Query fragment `limit ? "&limit=" + limit : ""`. -/
def limitQuery (limit : Nat) : String :=
  if limit ≠ 0 then "&limit=" ++ toString limit else ""

/-- Query fragment `stars ? "&stars=" + stars : ""`. -/
def starsQuery : String :=
  if stars ≠ 0 then "&stars=" ++ toString stars else ""

/-- The constant `baseEndpoint = "prs/list"`. -/
def baseEndpoint : String := "prs/list"

/-- The derived endpoint string, `baseEndpoint + "?" + pageQuery + limitQuery + starsQuery`. -/
def endpointString (page limit : Nat) : String :=
  baseEndpoint ++ "?" ++ pageQuery page ++ limitQuery limit ++ starsQuery

/-- The `Meta` shape defaulted by the hook when no response is present. -/
structure Meta where
  itemCount : Nat
  limit : Nat
  page : Nat
  hasNextPage : Bool
  hasPreviousPage : Bool
  pageCount : Nat
deriving DecidableEq, Repr

/-- The `PaginatedResponse` interface: `{ data: DbRepoPR[]; meta: Meta }`,
with the row type left as a parameter. -/
structure PaginatedResponse (α : Type) where
  data : List α
  meta : Meta
deriving DecidableEq

/-- The record returned by `usePullRequests` (the fetch-independent fields). -/
structure PullRequestsView (α : Type) where
  data : List α
  meta : Meta
  isLoading : Bool
  isError : Bool
deriving DecidableEq

/-- The return value of `usePullRequests` as a function of the SWR cell
`{ data, error }`:
`data: data?.data ?? []`, `meta: data?.meta ?? { 0s and falses }`,
`isLoading: !error && !data`, `isError: !!error`. -/
def usePullRequestsView {α : Type} (data : Option (PaginatedResponse α))
    (error : Option ApiError) : PullRequestsView α :=
  { data := match data with
      | some d => d.data
      | none => []
    meta := match data with
      | some d => d.meta
      | none => ⟨0, 0, 0, false, false, 0⟩
    isLoading := !error.isSome && !data.isSome
    isError := error.isSome }

/-! ## WorkspaceSettings (src/pages/workspaces/[workspaceId]/settings.tsx) -/

/-- Result of `getServerSideProps`: `{ notFound: true }`, a thrown error,
or `{ props: { workspace: data } }`. -/
inductive ServerSideResult where
  | notFound
  | thrown (message : String)
  | props (workspace : Option Workspace)
deriving DecidableEq, Repr

/-- Embedding of `getServerSideProps` as a function of the `fetchApiData` result
`{ data, error }`:
if `error` is present it returns `notFound` on status 404 and otherwise
throws an error mentioning the workspace id; without an
error it returns the fetched data as the page props. -/
def getServerSideProps (workspaceId : String) (data : Option Workspace)
    (error : Option ApiError) : ServerSideResult :=
  match error with
  | some err =>
    if err.status = 404 then ServerSideResult.notFound
    else ServerSideResult.thrown ("Error loading workspaces page with ID " ++ workspaceId)
  | none => ServerSideResult.props data

/-- The local state of `WorkspaceSettings` that the submit and modal
handlers read and write. -/
structure SettingsState where
  workspaceName : String
  trackedRepos : List (String × Bool)
  trackedReposPendingDeletion : List String
deriving DecidableEq, Repr

/-- The derived map of lines 62-71 of `settings.tsx`:
`new Map([...initialTrackedRepos.map(repo => [repo, true]), ...trackedRepos.entries()])`,
then a `forEach` that deletes every key in `trackedReposPendingDeletion`
(deleting the entry currently visited never skips a later entry, so the
traversal removes exactly the pending-deletion keys, keeping order). -/
def pendingTrackedRepos (initialTrackedRepos : List String)
    (trackedRepos : List (String × Bool))
    (trackedReposPendingDeletion : List String) : List (String × Bool) :=
  (mapOfEntries (initialTrackedRepos.map (fun repo => (repo, true)) ++ trackedRepos)).filter
    (fun e => !(trackedReposPendingDeletion.contains e.1))

/-- The request-lifecycle events of the `updateWorkspace` handler, used to
state in which order the two backend calls start and complete. -/
inductive ReqEvent where
  | startSave
  | completeSave
  | startDelete
  | completeDelete
deriving DecidableEq, Repr

/-- Everything observable about one run of the `updateWorkspace` submit
handler: the request trace, the two payloads, the resulting local state,
and the toasts, sidebar event and SWR revalidation it issued. -/
structure UpdateRun where
  trace : List ReqEvent
  saveName : String
  saveDescription : String
  saveRepos : List RepoRef
  deleteRepos : List RepoRef
  newState : SettingsState
  toasts : List Toast
  dispatchedWorkspaceUpdated : Bool
  mutatedTrackedRepos : Bool
deriving DecidableEq, Repr

/-- The `updateWorkspace` submit handler (lines 77-116 of `settings.tsx`)
as a function of the pre-state, the submitted form fields, and the errors
carried by the two backend results.

The code runs `const workspaceUpdate = await saveWorkspace({...})` to
completion, then `const workspaceRepoDeletes = await deleteTrackedRepos({...})`
to completion, and only then `await Promise.all([...])` over the two
already-settled values, so the trace is
start-save, complete-save, start-delete, complete-delete.
`saveWorkspace` receives `repos: Array.from(trackedRepos, ([repo]) => ({ full_name: repo }))`
and `deleteTrackedRepos` receives
`repos: Array.from(trackedReposPendingDeletion, repo => ({ full_name: repo }))`.
On `error || reposDeleteError` a danger toast is shown and no state is
touched; otherwise the name is stored, the sidebar event dispatched, the
repositories revalidated, both collections cleared and a success toast
shown. -/
def updateWorkspace (st : SettingsState) (name description : String)
    (saveError deleteError : Option ApiError) : UpdateRun :=
  let saveRepos := st.trackedRepos.map (fun e => RepoRef.mk e.1)
  let deleteRepos := st.trackedReposPendingDeletion.map RepoRef.mk
  let trace := [ReqEvent.startSave, ReqEvent.completeSave,
                ReqEvent.startDelete, ReqEvent.completeDelete]
  if saveError.isSome || deleteError.isSome then
    { trace := trace
      saveName := name
      saveDescription := description
      saveRepos := saveRepos
      deleteRepos := deleteRepos
      newState := st
      toasts := [⟨"Workspace update failed", ToastVariant.danger⟩]
      dispatchedWorkspaceUpdated := false
      mutatedTrackedRepos := false }
  else
    { trace := trace
      saveName := name
      saveDescription := description
      saveRepos := saveRepos
      deleteRepos := deleteRepos
      newState := { st with workspaceName := name
                            trackedRepos := []
                            trackedReposPendingDeletion := [] }
      toasts := [⟨"Workspace updated successfully", ToastVariant.success⟩]
      dispatchedWorkspaceUpdated := true
      mutatedTrackedRepos := true }

/-- The `onAddToTrackingList` handler of the `TrackedReposModal`
(lines 196-211): for each `(repo, isSelected)` entry of the modal map,
in iteration order, a selected repo is `set` into `trackedRepos` and an
unselected one deleted from it; `trackedReposPendingDeletion` is never
touched. -/
def onAddToTrackingList (st : SettingsState) (repos : List (String × Bool)) :
    SettingsState :=
  let updates :=
    repos.foldl (fun m e => if e.2 then mapSet m e.1 true else mapDeleteKey m e.1) st.trackedRepos
  { st with trackedRepos := updates }

/-- The `onRemoveTrackedRepo` handler of the `TrackedReposTable`
(lines 155-171), given the repo read from the row dataset: the repo is
deleted from `trackedRepos` and added to `trackedReposPendingDeletion`. -/
def onRemoveTrackedRepo (st : SettingsState) (repo : String) : SettingsState :=
  { st with trackedRepos := mapDeleteKey st.trackedRepos repo
            trackedReposPendingDeletion := setAdd st.trackedReposPendingDeletion repo }

/-- Everything observable about one run of the `DeleteWorkspaceModal`
`onDelete` handler: the toast shown and the route pushed, if any. -/
structure DeleteRun where
  toasts : List Toast
  navigatedTo : Option String
deriving DecidableEq, Repr

/-- The `onDelete` handler of `DeleteWorkspaceModal` (lines 220-228) as a
function of the error carried by the `deleteWorkspace` result: on error a
danger toast and no navigation, otherwise a success toast and
`router.push("/workspaces/new")`. -/
def onDeleteWorkspace (error : Option ApiError) : DeleteRun :=
  if error.isSome then
    { toasts := [⟨"Workspace delete failed", ToastVariant.danger⟩]
      navigatedTo := none }
  else
    { toasts := [⟨"Workspace deleted successfully", ToastVariant.success⟩]
      navigatedTo := some "/workspaces/new" }

/-! ## Helper lemmas about the Map embedding -/

theorem mapHas_iff (m : List (String × Bool)) (k : String) :
    mapHas m k = true ↔ ∃ e ∈ m, e.1 = k := by
  simp [mapHas]

theorem mapHas_mapSet (m : List (String × Bool)) (k : String) (v : Bool) (q : String) :
    mapHas (mapSet m k v) q = (mapHas m q || k == q) := by
  unfold mapSet
  by_cases h : mapHas m k = true
  · have hmap : ∀ e : String × Bool, ((if e.1 == k then (e.1, v) else e).1 == q) = (e.1 == q) := by
      intro e
      by_cases he : (e.1 == k) = true <;> simp [he]
    rw [if_pos h, mapHas, List.any_map]
    simp only [Function.comp_def, hmap]
    by_cases hk : (k == q) = true
    · have hq : k = q := by simpa using hk
      subst hq
      simp [mapHas] at h
      simp [mapHas, h, hk]
    · simp [mapHas, hk]
  · rw [if_neg h, mapHas, List.any_append]
    simp [mapHas]

theorem mapHas_foldlSet (es : List (String × Bool)) (m : List (String × Bool)) (k : String) :
    mapHas (es.foldl (fun acc e => mapSet acc e.1 e.2) m) k =
      (mapHas m k || es.any (fun e => e.1 == k)) := by
  induction es generalizing m with
  | nil => simp
  | cons e es ih => simp [ih, mapHas_mapSet, Bool.or_assoc]

theorem mapHas_mapOfEntries (es : List (String × Bool)) (k : String) :
    mapHas (mapOfEntries es) k = es.any (fun e => e.1 == k) := by
  rw [mapOfEntries, mapHas_foldlSet]
  simp [mapHas]

theorem mapHas_filter_not_contains (m : List (String × Bool)) (del : List String) (k : String) :
    mapHas (m.filter (fun e => !(del.contains e.1))) k = (mapHas m k && !(del.contains k)) := by
  rw [Bool.eq_iff_iff]
  constructor
  · intro hc
    rcases (mapHas_iff _ _).mp hc with ⟨e, hmem, hek⟩
    rcases List.mem_filter.mp hmem with ⟨hm, hp⟩
    have hp2 : (!(del.contains e.1)) = true := hp
    rw [hek] at hp2
    simp only [Bool.and_eq_true]
    exact ⟨(mapHas_iff _ _).mpr ⟨e, hm, hek⟩, hp2⟩
  · intro hc
    simp only [Bool.and_eq_true] at hc
    rcases hc with ⟨hhas, hnc⟩
    rcases (mapHas_iff _ _).mp hhas with ⟨e, hm, hek⟩
    refine (mapHas_iff _ _).mpr ⟨e, List.mem_filter.mpr ⟨hm, ?_⟩, hek⟩
    show (!(del.contains e.1)) = true
    rw [hek]
    exact hnc

theorem mapHas_pendingTrackedRepos (init : List String) (tr : List (String × Bool))
    (del : List String) (r : String) :
    mapHas (pendingTrackedRepos init tr del) r = true ↔
      ((r ∈ init ∨ mapHas tr r = true) ∧ r ∉ del) := by
  rw [pendingTrackedRepos, mapHas_filter_not_contains, mapHas_mapOfEntries]
  simp [List.any_append, List.any_map, Function.comp_def, mapHas]

/-! ## Claim theorems -/

/-- C1: a repo name is a key of `pendingTrackedRepos` if and only if it is
in `initialTrackedRepos` or a key of `trackedRepos`, and not in
`trackedReposPendingDeletion`. -/
theorem C1_pendingTrackedRepos_reconciliation
    (initialTrackedRepos : List String) (trackedRepos : List (String × Bool))
    (trackedReposPendingDeletion : List String) (repo : String) :
    mapHas (pendingTrackedRepos initialTrackedRepos trackedRepos trackedReposPendingDeletion)
        repo = true ↔
      ((repo ∈ initialTrackedRepos ∨ mapHas trackedRepos repo = true) ∧
        repo ∉ trackedReposPendingDeletion) :=
  mapHas_pendingTrackedRepos initialTrackedRepos trackedRepos trackedReposPendingDeletion repo

/-- C8: pending deletion wins over re-addition: `onAddToTrackingList` never
removes entries from `trackedReposPendingDeletion`, and a repo in
`trackedReposPendingDeletion` is never a key of `pendingTrackedRepos`, in
particular not after re-selecting it through the modal. -/
theorem C8_pendingDeletion_wins (init : List String) (st : SettingsState)
    (repos : List (String × Bool)) (repo : String)
    (hmem : repo ∈ st.trackedReposPendingDeletion) :
    (onAddToTrackingList st repos).trackedReposPendingDeletion =
        st.trackedReposPendingDeletion ∧
      mapHas (pendingTrackedRepos init (onAddToTrackingList st repos).trackedRepos
        st.trackedReposPendingDeletion) repo = false := by
  refine ⟨rfl, ?_⟩
  refine Bool.eq_false_iff.mpr (fun hc => ?_)
  exact ((mapHas_pendingTrackedRepos init _ _ repo).mp hc).2 hmem

/-- Witness for C8 at a concrete state: repo "a" is pending deletion, gets
re-selected through the modal, and still is not a key of the derived map. -/
theorem C8_pendingDeletion_wins_witness :
    (onAddToTrackingList (SettingsState.mk "w" [] ["a"]) [("a", true)]).trackedReposPendingDeletion =
        (SettingsState.mk "w" [] ["a"]).trackedReposPendingDeletion ∧
      mapHas (pendingTrackedRepos ["x"]
        (onAddToTrackingList (SettingsState.mk "w" [] ["a"]) [("a", true)]).trackedRepos
        (SettingsState.mk "w" [] ["a"]).trackedReposPendingDeletion) "a" = false :=
  C8_pendingDeletion_wins ["x"] (SettingsState.mk "w" [] ["a"]) [("a", true)] "a" (by decide)

/-- C2 (counterexample): the claim says the delete-tracked-repos request is
started before the save-workspace request has completed; in the run of the
handler on a concrete submit, the start of the delete request does not
precede the completion of the save request. -/
theorem C2_counterexample_not_parallel :
    ¬ ((updateWorkspace (SettingsState.mk "w" [] []) "n" "d" none none).trace.indexOf
          ReqEvent.startDelete <
        (updateWorkspace (SettingsState.mk "w" [] []) "n" "d" none none).trace.indexOf
          ReqEvent.completeSave) := by
  decide

/-- C2 (amended): the two update requests are issued sequentially: the
save-workspace request completes before the delete-tracked-repos request is
started, and the handler then combines both results. -/
theorem C2_sequential_requests (st : SettingsState) (name description : String)
    (saveError deleteError : Option ApiError) :
    (updateWorkspace st name description saveError deleteError).trace =
        [ReqEvent.startSave, ReqEvent.completeSave, ReqEvent.startDelete,
          ReqEvent.completeDelete] ∧
      (updateWorkspace st name description saveError deleteError).trace.indexOf
          ReqEvent.completeSave <
        (updateWorkspace st name description saveError deleteError).trace.indexOf
          ReqEvent.startDelete := by
  have ht : (updateWorkspace st name description saveError deleteError).trace =
      [ReqEvent.startSave, ReqEvent.completeSave, ReqEvent.startDelete,
        ReqEvent.completeDelete] := by
    rcases saveError with _ | e <;> rcases deleteError with _ | e2 <;> simp [updateWorkspace]
  refine ⟨ht, ?_⟩
  rw [ht]
  decide

/-- C3: after both requests settle, exactly one toast is shown: a danger
toast "Workspace update failed" exactly when either result carries an
error, otherwise a success toast "Workspace updated successfully". -/
theorem C3_update_toasts (st : SettingsState) (name description : String)
    (saveError deleteError : Option ApiError) :
    (updateWorkspace st name description saveError deleteError).toasts.length = 1 ∧
      ((updateWorkspace st name description saveError deleteError).toasts =
          [Toast.mk "Workspace update failed" ToastVariant.danger] ↔
        (saveError.isSome = true ∨ deleteError.isSome = true)) ∧
      ((updateWorkspace st name description saveError deleteError).toasts =
          [Toast.mk "Workspace updated successfully" ToastVariant.success] ↔
        ¬(saveError.isSome = true ∨ deleteError.isSome = true)) := by
  rcases saveError with _ | e <;> rcases deleteError with _ | e2 <;>
    simp [updateWorkspace]

/-- C4: on a successful submit the handler stores the submitted name and
clears both collections; on a failed submit the local state is unchanged. -/
theorem C4_update_state (st : SettingsState) (name description : String)
    (saveError deleteError : Option ApiError) :
    ((saveError = none ∧ deleteError = none) →
        (updateWorkspace st name description saveError deleteError).newState =
          SettingsState.mk name [] []) ∧
      ((saveError.isSome = true ∨ deleteError.isSome = true) →
        (updateWorkspace st name description saveError deleteError).newState = st) := by
  constructor
  · rintro ⟨rfl, rfl⟩
    simp [updateWorkspace]
  · intro h
    rcases saveError with _ | e
    · rcases deleteError with _ | e2
      · simp at h
      · simp [updateWorkspace]
    · rcases deleteError with _ | e2 <;> simp [updateWorkspace]

/-- Witness for C4: a successful submit stores the name and clears both
collections; a failed submit leaves the state unchanged. -/
theorem C4_update_state_witness :
    (updateWorkspace (SettingsState.mk "old" [("r", true)] ["q"]) "new" "" none none).newState =
        SettingsState.mk "new" [] [] ∧
      (updateWorkspace (SettingsState.mk "old" [("r", true)] ["q"]) "new" ""
          (some (ApiError.mk 500)) none).newState =
        SettingsState.mk "old" [("r", true)] ["q"] :=
  ⟨(C4_update_state (SettingsState.mk "old" [("r", true)] ["q"]) "new" "" none none).1
      ⟨rfl, rfl⟩,
   (C4_update_state (SettingsState.mk "old" [("r", true)] ["q"]) "new" ""
      (some (ApiError.mk 500)) none).2 (Or.inl rfl)⟩

/-- C6: the save payload is precisely the keys of `trackedRepos` wrapped as
`full_name` records, and the delete payload precisely the elements of
`trackedReposPendingDeletion` so wrapped. -/
theorem C6_update_payloads (st : SettingsState) (name description : String)
    (saveError deleteError : Option ApiError) (repo : String) :
    (updateWorkspace st name description saveError deleteError).saveRepos =
        st.trackedRepos.map (fun e => RepoRef.mk e.1) ∧
      (updateWorkspace st name description saveError deleteError).deleteRepos =
        st.trackedReposPendingDeletion.map RepoRef.mk ∧
      (RepoRef.mk repo ∈ (updateWorkspace st name description saveError deleteError).saveRepos ↔
        mapHas st.trackedRepos repo = true) ∧
      (RepoRef.mk repo ∈ (updateWorkspace st name description saveError deleteError).deleteRepos ↔
        repo ∈ st.trackedReposPendingDeletion) := by
  have hs : (updateWorkspace st name description saveError deleteError).saveRepos =
      st.trackedRepos.map (fun e => RepoRef.mk e.1) := by
    rcases saveError with _ | e <;> rcases deleteError with _ | e2 <;> simp [updateWorkspace]
  have hd : (updateWorkspace st name description saveError deleteError).deleteRepos =
      st.trackedReposPendingDeletion.map RepoRef.mk := by
    rcases saveError with _ | e <;> rcases deleteError with _ | e2 <;> simp [updateWorkspace]
  refine ⟨hs, hd, ?_, ?_⟩
  · rw [hs]
    simp [List.mem_map, mapHas_iff, RepoRef.mk.injEq]
  · rw [hd]
    simp [List.mem_map, RepoRef.mk.injEq]

/-- C7: the delete-workspace handler shows a danger toast and stays on the
page on error, and shows a success toast and navigates to
"/workspaces/new" otherwise. -/
theorem C7_onDelete (error : Option ApiError) :
    (error.isSome = true →
        onDeleteWorkspace error =
          DeleteRun.mk [Toast.mk "Workspace delete failed" ToastVariant.danger] none) ∧
      (error = none →
        onDeleteWorkspace error =
          DeleteRun.mk [Toast.mk "Workspace deleted successfully" ToastVariant.success]
            (some "/workspaces/new")) := by
  rcases error with _ | e <;> simp [onDeleteWorkspace]

/-- Witness for C7 at a failing and a succeeding delete request. -/
theorem C7_onDelete_witness :
    onDeleteWorkspace (some (ApiError.mk 500)) =
        DeleteRun.mk [Toast.mk "Workspace delete failed" ToastVariant.danger] none ∧
      onDeleteWorkspace none =
        DeleteRun.mk [Toast.mk "Workspace deleted successfully" ToastVariant.success]
          (some "/workspaces/new") :=
  ⟨(C7_onDelete (some (ApiError.mk 500))).1 rfl, (C7_onDelete none).2 rfl⟩

/-- C9: without a response the hook returns the empty list and the zero
meta record; `isLoading` holds exactly when there is neither an error nor
data, and `isError` exactly when there is an error. -/
theorem C9_usePullRequests_fallbacks {α : Type} (data : Option (PaginatedResponse α))
    (error : Option ApiError) :
    (data = none →
        (usePullRequestsView data error).data = [] ∧
          (usePullRequestsView data error).meta = Meta.mk 0 0 0 false false 0) ∧
      ((usePullRequestsView data error).isLoading = true ↔ error = none ∧ data = none) ∧
      ((usePullRequestsView data error).isError = true ↔ error ≠ none) := by
  rcases data with _ | d <;> rcases error with _ | e <;> simp [usePullRequestsView]

/-- Witness for C9 at the initial SWR state (no data, no error). -/
theorem C9_usePullRequests_fallbacks_witness :
    (usePullRequestsView (none : Option (PaginatedResponse Nat)) none).data = [] ∧
      (usePullRequestsView (none : Option (PaginatedResponse Nat)) none).meta =
        Meta.mk 0 0 0 false false 0 :=
  (C9_usePullRequests_fallbacks (none : Option (PaginatedResponse Nat)) none).1 rfl

/-- C10: the server-side loader returns `notFound` exactly on a 404 error,
throws on every other error, and returns the fetched workspace as props on
success. -/
theorem C10_getServerSideProps (workspaceId : String) (data : Option Workspace)
    (error : Option ApiError) :
    (getServerSideProps workspaceId data error = ServerSideResult.notFound ↔
        ∃ err, error = some err ∧ err.status = 404) ∧
      (∀ err, error = some err → err.status ≠ 404 →
        getServerSideProps workspaceId data error =
          ServerSideResult.thrown ("Error loading workspaces page with ID " ++ workspaceId)) ∧
      (error = none → getServerSideProps workspaceId data error = ServerSideResult.props data) := by
  rcases error with _ | err
  · simp [getServerSideProps]
  · by_cases h : err.status = 404 <;> simp [getServerSideProps, h]

/-- Witness for C10: a 404 error, a 500 error and a success. -/
theorem C10_getServerSideProps_witness :
    getServerSideProps "ws1" none (some (ApiError.mk 404)) = ServerSideResult.notFound ∧
      getServerSideProps "ws1" none (some (ApiError.mk 500)) =
        ServerSideResult.thrown ("Error loading workspaces page with ID " ++ "ws1") ∧
      getServerSideProps "ws1" (some (Workspace.mk "id1" "n" "d")) none =
        ServerSideResult.props (some (Workspace.mk "id1" "n" "d")) :=
  ⟨(C10_getServerSideProps "ws1" none (some (ApiError.mk 404))).1.mpr
      ⟨ApiError.mk 404, rfl, rfl⟩,
   (C10_getServerSideProps "ws1" none (some (ApiError.mk 500))).2.1
      (ApiError.mk 500) rfl (by decide),
   (C10_getServerSideProps "ws1" (some (Workspace.mk "id1" "n" "d")) none).2.2 rfl⟩

/-- C5: the hook starts at page 1 and limit 500, and for positive page and
limit the endpoint string is exactly
"prs/list?page=P&limit=L&stars=1000". -/
theorem C5_usePullRequests_endpoint :
    (initialPage = 1 ∧ initialLimit = 500) ∧
      ∀ (page limit : Nat), 1 ≤ page → 1 ≤ limit →
        endpointString page limit =
          "prs/list?page=" ++ toString page ++ "&limit=" ++ toString limit ++ "&stars=1000" := by
  refine ⟨⟨rfl, rfl⟩, ?_⟩
  intro p l hp hl
  have hp0 : p ≠ 0 := Nat.one_le_iff_ne_zero.mp hp
  have hl0 : l ≠ 0 := Nat.one_le_iff_ne_zero.mp hl
  have hs : starsQuery = "&stars=1000" := by decide
  simp only [endpointString, pageQuery, limitQuery, baseEndpoint]
  rw [if_pos hp0, if_pos hl0, hs]
  simp only [← String.append_assoc]
  rw [show (("prs/list" : String) ++ "?") ++ "page=" = "prs/list?page=" from rfl]

/-- Witness for C5 at the initial page and limit. -/
theorem C5_usePullRequests_endpoint_witness :
    endpointString 1 500 =
      "prs/list?page=" ++ toString 1 ++ "&limit=" ++ toString 500 ++ "&stars=1000" :=
  C5_usePullRequests_endpoint.2 1 500 (by decide) (by decide)

end App
